import Mathlib

/-!
Formal model of the PharmaNotify session/notification relay core.

This file gives a shallow embedding, in Lean 4, of the parts of the
repository that the specification talks about:

* `src/shared/protocol.py` — the length-prefixed wire protocol
  (`enviar_mensaje`, `recibir_mensaje`);
* `src/server/server.py` — the client handshake (`manejar_cliente`),
  the state summary (`obtener_resumen_estado`), the CRUD dispatcher
  (`manejar_crud`), the monitor command handler
  (`manejar_comando_monitor`), the Redis relay loop body
  (`escuchar_notificaciones_redis`), and the two global directory
  dictionaries `clientes_conectados` / `clientes_por_id`;
* `src/db/database.py` — `crear_medicamento`;
* `src/infrastructure/repositories/notificaciones.py` — `ver_notificaciones`.

Python dictionaries are modelled as association lists with unique keys,
the asyncio byte streams as `List Nat` (byte values), awaited calls to
the database as pure functions over an explicit `BaseDatos` record, and
the interleaving of the cooperatively scheduled tasks as explicit
transition systems over small event alphabets.
-/

/-! ### Python string helpers

`str.strip()` removes leading and trailing whitespace and `str.lower()`
lower-cases; we model the ASCII fragment, which is the one exercised by
the repository (pharmacy names, codes). -/

/-- Characters treated as whitespace by Python `str.strip()` (ASCII fragment). -/
def esEspacio (c : Char) : Bool :=
  c == ' ' || c == '\t' || c == '\n' || c == '\r' || c == '\x0b' || c == '\x0c'

/-- Model of Python `str.strip()`: drop whitespace from both ends. -/
def pyStrip (s : String) : String :=
  ⟨((s.data.dropWhile esEspacio).reverse.dropWhile esEspacio).reverse⟩

/-- Lower-case a single ASCII character, as Python `str.lower()` does. -/
def pyLowerChar (c : Char) : Char :=
  if 'A' ≤ c && c ≤ 'Z' then Char.ofNat (c.toNat + 32) else c

/-- Model of Python `str.lower()` (ASCII fragment). -/
def pyLower (s : String) : String :=
  ⟨s.data.map pyLowerChar⟩

/-- The single-quote character, used inside the f-string messages of the
server; kept out of string literals on purpose. -/
def comilla : String := String.singleton (Char.ofNat 39)

/-! ### Association-list model of Python dict

`clientes_conectados : dict[str, StreamWriter]` and
`clientes_por_id : dict[int, StreamWriter]` are modelled as association
lists; a `StreamWriter` is identified by the numeric id of its
connection. `dictSet` models `d[k] = v`, `dictErase` models `del d[k]`,
`dictGet` models `d.get(k)` / `k in d`, `dictClaves` models
`list(d.keys())`. -/

/-- Lookup in the association-list model of a Python dict. -/
def dictGet {κ ν : Type} [DecidableEq κ] (k : κ) : List (κ × ν) → Option ν
  | [] => none
  | (k2, v) :: resto => if k2 = k then some v else dictGet k resto

/-- Model of `del d[k]` (removes the binding of `k`, if any). -/
def dictErase {κ ν : Type} [DecidableEq κ] (k : κ) (d : List (κ × ν)) : List (κ × ν) :=
  d.filter (fun par => decide (par.1 ≠ k))

/-- Model of `d[k] = v`: binds `k` to `v`, overwriting any previous binding. -/
def dictSet {κ ν : Type} [DecidableEq κ] (k : κ) (v : ν) (d : List (κ × ν)) : List (κ × ν) :=
  (k, v) :: dictErase k d

/-- Model of `k in d`. -/
def dictTiene {κ ν : Type} [DecidableEq κ] (k : κ) (d : List (κ × ν)) : Bool :=
  (dictGet k d).isSome

/-- Model of `list(d.keys())`. -/
def dictClaves {κ ν : Type} (d : List (κ × ν)) : List κ :=
  d.map Prod.fst

/-! ### Wire protocol (`src/shared/protocol.py`)

A TCP stream is a `List Nat` of byte values. `struct.pack("!I", n)`
produces the 4-byte unsigned big-endian encoding of `n` and raises
`struct.error` when `n` does not fit, which we model with `Option`.
`reader.readexactly(n)` returns the first `n` bytes of the stream or
raises `asyncio.IncompleteReadError` when the peer closes first.
JSON serialization is done by the Python standard library (an external
collaborator of this repository), so it enters the model as a codec
parameter `enc` / `dec`; `dec` returns `none` on unparseable bytes,
modelling the `ValueError` raised by `json.loads`. -/

/-- Value of `LONGITUD_PREFIJO` in `src/shared/protocol.py`. -/
def LONGITUD_PREFIJO : Nat := 4

/-- Model of `struct.pack("!I", n)`: 4-byte unsigned big-endian, or `none`
(a raised `struct.error`) when `n ≥ 2^32`. -/
def struct_pack_I (n : Nat) : Option (List Nat) :=
  if n < 4294967296 then
    some [n / 16777216 % 256, n / 65536 % 256, n / 256 % 256, n % 256]
  else none

/-- Model of `struct.unpack("!I", bs)[0]` on a 4-byte input. -/
def struct_unpack_I : List Nat → Nat
  | [b0, b1, b2, b3] => ((b0 * 256 + b1) * 256 + b2) * 256 + b3
  | _ => 0

/-- Model of `await reader.readexactly(n)`: the first `n` bytes and the rest
of the stream, or `none` (a raised `asyncio.IncompleteReadError`) when the
stream ends first. -/
def readexactly (n : Nat) (stream : List Nat) : Option (List Nat × List Nat) :=
  if n ≤ stream.length then some (stream.take n, stream.drop n) else none

/-- Exceptions that `recibir_mensaje` can raise: `asyncio.IncompleteReadError`
from `readexactly`, or the `ValueError` from `json.loads`. The function has
no non-raising "connection closed" return value. -/
inductive ErrorProtocolo where
  | incompleteRead
  | jsonInvalido
deriving DecidableEq

/-- Model of `enviar_mensaje(writer, datos)` from `src/shared/protocol.py`:
serialize (`enc` stands for `json.dumps(·).encode("utf-8")`), prefix with
the packed length, and write both to the stream; the produced bytes are
returned. `none` models the `struct.error` raised when the payload does
not fit a 4-byte prefix. -/
def enviar_mensaje {α : Type} (enc : α → List Nat) (datos : α) : Option (List Nat) :=
  let mensaje_json := enc datos
  match struct_pack_I mensaje_json.length with
  | some longitud => some (longitud ++ mensaje_json)
  | none => none

/-- Model of `recibir_mensaje(reader)` from `src/shared/protocol.py`:
read exactly `LONGITUD_PREFIJO` bytes, unpack the length, read exactly
that many bytes, and deserialize (`dec` stands for
`json.loads(·.decode("utf-8"))`). On success it returns the value and the
unconsumed rest of the stream. Despite its docstring, the source has no
code path returning `None`: a closed or truncated stream makes
`readexactly` raise, which is the `Except.error` branch here. -/
def recibir_mensaje {α : Type} (dec : List Nat → Option α) (stream : List Nat) :
    Except ErrorProtocolo (α × List Nat) :=
  match readexactly LONGITUD_PREFIJO stream with
  | none => Except.error ErrorProtocolo.incompleteRead
  | some (prefijo, resto1) =>
    let longitud := struct_unpack_I prefijo
    match readexactly longitud resto1 with
    | none => Except.error ErrorProtocolo.incompleteRead
    | some (datos_crudos, resto2) =>
      match dec datos_crudos with
      | some v => Except.ok (v, resto2)
      | none => Except.error ErrorProtocolo.jsonInvalido

/-- A tiny concrete codec over `Bool`, used to instantiate the codec
parameters of the protocol model at concrete inputs. -/
def encBool (b : Bool) : List Nat := [cond b 1 0]

/-- Decoder matching `encBool`. -/
def decBool : List Nat → Option Bool
  | [1] => some true
  | [0] => some false
  | _ => none

/-! #### Protocol lemmas -/

theorem readexactly_append (xs rest : List Nat) :
    readexactly xs.length (xs ++ rest) = some (xs, rest) := by
  unfold readexactly
  rw [if_pos (by simp)]
  simp

theorem struct_unpack_pack (n : Nat) (h : n < 4294967296) :
    struct_unpack_I ((struct_pack_I n).getD []) = n := by
  unfold struct_pack_I
  rw [if_pos h]
  simp only [Option.getD_some, struct_unpack_I]
  omega

/-- C2 (confirmed). For every serializable message whose encoded payload
fits in the 4-byte unsigned big-endian prefix, `enviar_mensaje` succeeds
and `recibir_mensaje` applied to the produced bytes (followed by any
further stream content) reconstructs an equal message and leaves the rest
of the stream untouched: the send/receive pair round-trips. -/
theorem C2_enviar_recibir_roundtrip {α : Type} (enc : α → List Nat)
    (dec : List Nat → Option α) (hdec : ∀ x, dec (enc x) = some x)
    (m : α) (resto : List Nat) (hlen : (enc m).length < 4294967296) :
    ∃ fuera, enviar_mensaje enc m = some fuera ∧
      recibir_mensaje dec (fuera ++ resto) = Except.ok (m, resto) := by
  have hpack : struct_pack_I (enc m).length =
      some [(enc m).length / 16777216 % 256, (enc m).length / 65536 % 256,
            (enc m).length / 256 % 256, (enc m).length % 256] := by
    unfold struct_pack_I
    rw [if_pos hlen]
  refine ⟨[(enc m).length / 16777216 % 256, (enc m).length / 65536 % 256,
           (enc m).length / 256 % 256, (enc m).length % 256] ++ enc m, ?_, ?_⟩
  · simp only [enviar_mensaje, hpack]
  · have hunpack : struct_unpack_I
        [(enc m).length / 16777216 % 256, (enc m).length / 65536 % 256,
         (enc m).length / 256 % 256, (enc m).length % 256] = (enc m).length := by
      have := struct_unpack_pack (enc m).length hlen
      rw [hpack] at this
      simpa using this
    unfold recibir_mensaje
    have h4 : LONGITUD_PREFIJO = ([(enc m).length / 16777216 % 256,
        (enc m).length / 65536 % 256, (enc m).length / 256 % 256,
        (enc m).length % 256] : List Nat).length := by
      simp [LONGITUD_PREFIJO]
    rw [List.append_assoc, h4, readexactly_append]
    simp only [hunpack, readexactly_append, hdec]

/-- Witness for C2: the round trip evaluated at a concrete codec, message
and stream remainder. -/
theorem C2_enviar_recibir_roundtrip_witness :
    ∃ fuera, enviar_mensaje encBool true = some fuera ∧
      recibir_mensaje decBool (fuera ++ [7]) = Except.ok (true, [7]) :=
  C2_enviar_recibir_roundtrip encBool decBool (by decide) true [7] (by decide)

/-- C6 (code_bug). When the peer closes the connection before any
length-prefix byte is available (empty stream), `recibir_mensaje` does not
return a non-error `None` signal: the source has no such return path and
`readexactly` raises `asyncio.IncompleteReadError`, modelled here by the
`Except.error` result. A short read after a valid prefix (here a prefix
announcing 5 bytes followed by only one byte) raises the same exception.
The docstring of `recibir_mensaje` and the `if mensaje is None` checks of
both callers show the `None` return was the intent; the claim matches the
documentation and the code does not. -/
theorem C6_recibir_mensaje_cierre_lanza_excepcion :
    recibir_mensaje decBool ([] : List Nat) = Except.error ErrorProtocolo.incompleteRead ∧
    recibir_mensaje decBool [0, 0, 0, 5, 1] = Except.error ErrorProtocolo.incompleteRead :=
  ⟨rfl, rfl⟩

/-! ### Database model

The relational schema behind `src/db/database.py` and the repositories:
a pharmacy row, a medication row (soft-deleted rows keep `activo = false`
with a `motivo_baja`), a notification row, and the whole database. Dates
and timestamps are modelled as the values the code orders by: strings for
`fecha_vencimiento` (ISO dates compare correctly as strings) and numbers
for `creado_en`. -/

/-- A row of the `farmacias` table. -/
structure Farmacia where
  id : Nat
  nombre : String
  umbral_dias : Nat := 7
  activo : Bool := true
deriving DecidableEq

/-- A row of the `medicamentos` table. -/
structure Medicamento where
  farmacia_id : Nat
  codigo : String
  nombre : String
  fecha_vencimiento : String
  activo : Bool := true
  motivo_baja : String := ""
deriving DecidableEq

/-- A row of the `notificaciones` table. -/
structure Notificacion where
  id : Nat
  farmacia_id : Nat
  tipo : String
  mensaje : String
  leida : Bool
  creado_en : Nat
deriving DecidableEq

/-- The database state seen through the async connection. -/
structure BaseDatos where
  farmacias : List Farmacia := []
  medicamentos : List Medicamento := []
  notificaciones : List Notificacion := []
deriving DecidableEq

/-- Envelopes, keyed by their `tipo` field, that the server writes to a
client connection (`{"tipo": ..., ...}` dictionaries in the source). -/
inductive Mensaje where
  | error (mensaje : String)
  | rechazo (mensaje : String)
  | resumen_estado (medicamentos_activos : Nat) (notificaciones_no_leidas : Nat)
      (vencidos_mientras_ausente : List (String × String))
  | respuesta (ok : Bool) (mensaje : String)
  | notificacion (mensaje : String)
deriving DecidableEq

/-- Whether an envelope is the rejection kind (`{"tipo": "rechazo"}`). -/
def esRechazo : Mensaje → Bool
  | Mensaje.rechazo _ => true
  | _ => false

/-! ### State summary (`obtener_resumen_estado`, `src/server/server.py` 112-158) -/

/-- Descending order on expiry dates, as produced by
`ORDER BY fecha_vencimiento DESC`. -/
def fechaDesc (a b : Medicamento) : Prop := b.fecha_vencimiento ≤ a.fecha_vencimiento

instance : DecidableRel fechaDesc := fun a b =>
  inferInstanceAs (Decidable (b.fecha_vencimiento ≤ a.fecha_vencimiento))

instance : IsTotal Medicamento fechaDesc :=
  ⟨fun a b => (le_total b.fecha_vencimiento a.fecha_vencimiento).elim Or.inl Or.inr⟩

instance : IsTrans Medicamento fechaDesc :=
  ⟨fun _ _ _ hab hbc => le_trans hbc hab⟩

/-- Query `SELECT COUNT(*) FROM medicamentos WHERE farmacia_id = %s AND activo = TRUE`. -/
def medicamentosActivos (bd : BaseDatos) (farmacia_id : Nat) : Nat :=
  (bd.medicamentos.filter (fun m => m.farmacia_id == farmacia_id && m.activo)).length

/-- Query `SELECT COUNT(*) FROM notificaciones WHERE farmacia_id = %s AND leida = FALSE`. -/
def notificacionesNoLeidas (bd : BaseDatos) (farmacia_id : Nat) : Nat :=
  (bd.notificaciones.filter (fun n => n.farmacia_id == farmacia_id && !n.leida)).length

/-- Query for the auto-expired medications block of the summary:
`WHERE farmacia_id = %s AND activo = FALSE AND motivo_baja = 'vencido_automatico'
ORDER BY fecha_vencimiento DESC LIMIT 10`. -/
def vencidosAutomaticos (bd : BaseDatos) (farmacia_id : Nat) : List Medicamento :=
  ((bd.medicamentos.filter
      (fun m => m.farmacia_id == farmacia_id && !m.activo &&
        m.motivo_baja == "vencido_automatico")).insertionSort fechaDesc).take 10

/-- Model of `obtener_resumen_estado(conn, farmacia_id)`
(`src/server/server.py` 112-158): the three queries assembled into the
`resumen_estado` envelope. -/
def obtener_resumen_estado (bd : BaseDatos) (farmacia_id : Nat) : Mensaje :=
  Mensaje.resumen_estado
    (medicamentosActivos bd farmacia_id)
    (notificacionesNoLeidas bd farmacia_id)
    ((vencidosAutomaticos bd farmacia_id).map
      (fun m => (m.nombre, m.fecha_vencimiento)))

/-! ### Handshake (`manejar_cliente`, `src/server/server.py` 264-342)

The two global dictionaries and the handshake portion of
`manejar_cliente`, from receiving the first message up to entering the
receive loop. A connection is identified by a numeric id `cid` standing
for its `StreamWriter`. -/

/-- The two synchronized global dictionaries of `src/server/server.py`:
`clientes_conectados` (normalized name to writer) and `clientes_por_id`
(pharmacy id to writer). -/
structure DirectorioClientes where
  clientes_conectados : List (String × Nat) := []
  clientes_por_id : List (Nat × Nat) := []
deriving DecidableEq

/-- Outcome of the handshake portion of `manejar_cliente`: the envelope
sent in reply to the first message, whether the connection entered the
ACTIVE receive loop, and the directory afterwards. -/
structure ResultadoHandshake where
  enviado : Mensaje
  activo : Bool
  dir : DirectorioClientes
deriving DecidableEq

/-- Query `SELECT id, nombre, activo FROM farmacias WHERE LOWER(nombre) = %s`
followed by `fetchone()` (the argument is already lower-cased by the caller). -/
def consultaFarmaciaPorNombre (bd : BaseDatos) (nombre_norm : String) : Option Farmacia :=
  bd.farmacias.find? (fun f => pyLower f.nombre == nombre_norm)

/-- Message of the empty-name branch of `manejar_cliente`. -/
def msgNombreVacio : String := "Nombre de farmacia vacío. Cerrando conexión."

/-- Message of the not-registered branch (an f-string interpolating the raw name). -/
def msgNoRegistrada (nombre_raw : String) : String :=
  "La farmacia " ++ comilla ++ nombre_raw ++ comilla ++ " no está registrada en el sistema."

/-- Message of the deactivated branch (interpolating the name stored in the database). -/
def msgDesactivada (nombre_bd : String) : String :=
  "La farmacia " ++ comilla ++ nombre_bd ++ comilla ++ " está desactivada."

/-- Model of the handshake portion of `manejar_cliente(reader, writer)`
(`src/server/server.py` 279-342): normalize the received name with
`.strip().lower()`, reject the empty name with an `error` envelope, look
the pharmacy up case-insensitively, reject an unknown or deactivated
pharmacy with a `rechazo` envelope, and otherwise store the writer in
both global dictionaries and send the state summary. -/
def manejar_cliente_handshake (bd : BaseDatos) (dir : DirectorioClientes)
    (cid : Nat) (nombre_farmacia_raw : String) : ResultadoHandshake :=
  if pyLower (pyStrip nombre_farmacia_raw) = "" then
    { enviado := Mensaje.error msgNombreVacio, activo := false, dir := dir }
  else
    match consultaFarmaciaPorNombre bd (pyLower (pyStrip nombre_farmacia_raw)) with
    | none =>
      { enviado := Mensaje.rechazo (msgNoRegistrada nombre_farmacia_raw),
        activo := false, dir := dir }
    | some farmacia =>
      if !farmacia.activo then
        { enviado := Mensaje.rechazo (msgDesactivada farmacia.nombre),
          activo := false, dir := dir }
      else
        { enviado := obtener_resumen_estado bd farmacia.id,
          activo := true,
          dir := { clientes_conectados :=
                     dictSet (pyLower (pyStrip nombre_farmacia_raw)) cid dir.clientes_conectados,
                   clientes_por_id := dictSet farmacia.id cid dir.clientes_por_id } }

/-- Reply of the monitor `status` command (`src/server/server.py` 449-459):
`list(clientes_conectados.keys())` and its length. -/
structure RespuestaStatus where
  ok : Bool
  farmacias_conectadas : List String
  total_conectadas : Nat
deriving DecidableEq

/-- Model of the `status` branch of `manejar_comando_monitor`. -/
def comando_status (dir : DirectorioClientes) : RespuestaStatus :=
  { ok := true,
    farmacias_conectadas := dictClaves dir.clientes_conectados,
    total_conectadas := dir.clientes_conectados.length }

/-! #### Dict lemmas -/

theorem dictGet_dictSet_self {κ ν : Type} [DecidableEq κ] (k : κ) (v : ν)
    (d : List (κ × ν)) : dictGet k (dictSet k v d) = some v := by
  simp [dictSet, dictGet]

theorem mem_dictClaves_dictSet {κ ν : Type} [DecidableEq κ] (k : κ) (v : ν)
    (d : List (κ × ν)) : k ∈ dictClaves (dictSet k v d) := by
  simp [dictSet, dictClaves]

/-! #### C1: the handshake outcomes -/

/-- Database fixture: a single registered, active pharmacy. -/
def bdW : BaseDatos :=
  { farmacias := [{ id := 1, nombre := "Farmacia Centro", umbral_dias := 7, activo := true }] }

/-- Counterexample for C1 as stated. The connection whose handshake name is
"   " has a trimmed name matching no pharmacy row of `bdW`, so the claim
requires a rejection envelope; the server instead sends an `error`
envelope (`"tipo": "error"`, the empty-name branch) and closes. -/
theorem C1_counterexample :
    consultaFarmaciaPorNombre bdW (pyLower (pyStrip "   ")) = none ∧
    (manejar_cliente_handshake bdW ⟨[], []⟩ 1 "   ").enviado = Mensaje.error msgNombreVacio ∧
    esRechazo (manejar_cliente_handshake bdW ⟨[], []⟩ 1 "   ").enviado = false ∧
    (manejar_cliente_handshake bdW ⟨[], []⟩ 1 "   ").activo = false := by
  refine ⟨rfl, rfl, rfl, rfl⟩

/-- C1 (corrected). The handshake has four outcomes, not three: an empty
trimmed name is answered with an `error` envelope (not a rejection) and
the connection closes without a database lookup; a nonempty trimmed name
matching no pharmacy row gets a rejection envelope and closes; a match on
a pharmacy whose active flag is false gets a rejection envelope and
closes; a match on an active pharmacy registers the connection in both
directory indices and is answered with the state-summary envelope
(active-medication count, unread-notification count, up to 10 most-recent
auto-expired medications), entering the ACTIVE receive loop. -/
theorem C1_handshake_resultados (bd : BaseDatos) (dir : DirectorioClientes)
    (cid : Nat) (raw : String) :
    (pyLower (pyStrip raw) = "" →
      manejar_cliente_handshake bd dir cid raw =
        { enviado := Mensaje.error msgNombreVacio, activo := false, dir := dir }) ∧
    (pyLower (pyStrip raw) ≠ "" →
      (consultaFarmaciaPorNombre bd (pyLower (pyStrip raw)) = none →
        manejar_cliente_handshake bd dir cid raw =
          { enviado := Mensaje.rechazo (msgNoRegistrada raw), activo := false, dir := dir }) ∧
      (∀ f, consultaFarmaciaPorNombre bd (pyLower (pyStrip raw)) = some f →
        (f.activo = false →
          manejar_cliente_handshake bd dir cid raw =
            { enviado := Mensaje.rechazo (msgDesactivada f.nombre), activo := false, dir := dir }) ∧
        (f.activo = true →
          (manejar_cliente_handshake bd dir cid raw).activo = true ∧
          dictGet (pyLower (pyStrip raw))
            (manejar_cliente_handshake bd dir cid raw).dir.clientes_conectados = some cid ∧
          dictGet f.id (manejar_cliente_handshake bd dir cid raw).dir.clientes_por_id = some cid ∧
          (manejar_cliente_handshake bd dir cid raw).enviado =
            Mensaje.resumen_estado (medicamentosActivos bd f.id) (notificacionesNoLeidas bd f.id)
              ((vencidosAutomaticos bd f.id).map (fun m => (m.nombre, m.fecha_vencimiento)))))) := by
  constructor
  · intro h0
    simp [manejar_cliente_handshake, h0]
  · intro h0
    constructor
    · intro hq
      simp [manejar_cliente_handshake, h0, hq]
    · intro f hf
      constructor
      · intro ha
        simp [manejar_cliente_handshake, h0, hf, ha]
      · intro ha
        simp [manejar_cliente_handshake, h0, hf, ha, obtener_resumen_estado,
          dictGet_dictSet_self]

/-- Witness for C1: the active-pharmacy outcome evaluated on the concrete
database `bdW` and the handshake name " Farmacia Centro " (note the
surrounding whitespace). -/
theorem C1_handshake_resultados_witness :
    (manejar_cliente_handshake bdW ⟨[], []⟩ 3 " Farmacia Centro ").activo = true ∧
    dictGet (pyLower (pyStrip " Farmacia Centro "))
      (manejar_cliente_handshake bdW ⟨[], []⟩ 3 " Farmacia Centro ").dir.clientes_conectados = some 3 ∧
    dictGet 1 (manejar_cliente_handshake bdW ⟨[], []⟩ 3 " Farmacia Centro ").dir.clientes_por_id = some 3 ∧
    (manejar_cliente_handshake bdW ⟨[], []⟩ 3 " Farmacia Centro ").enviado =
      Mensaje.resumen_estado (medicamentosActivos bdW 1) (notificacionesNoLeidas bdW 1)
        ((vencidosAutomaticos bdW 1).map (fun m => (m.nombre, m.fecha_vencimiento))) :=
  (((C1_handshake_resultados bdW ⟨[], []⟩ 3 " Farmacia Centro ").2 (by decide)).2
    { id := 1, nombre := "Farmacia Centro", umbral_dias := 7, activo := true }
    (by decide)).2 (by decide)

/-! #### C7: the canonical stored name -/

/-- Counterexample for C7 as stated. The pharmacy registered as
"Farmacia Centro" connects with exactly that name (trimming changes
nothing), yet the directory key — and hence the name later returned by the
admin status command — is the lower-cased "farmacia centro", and no entry
exists under the exact-case name. -/
theorem C7_counterexample :
    (manejar_cliente_handshake bdW ⟨[], []⟩ 2 "Farmacia Centro").activo = true ∧
    pyStrip "Farmacia Centro" = "Farmacia Centro" ∧
    (comando_status (manejar_cliente_handshake bdW ⟨[], []⟩ 2 "Farmacia Centro").dir).farmacias_conectadas
      = ["farmacia centro"] ∧
    dictGet "Farmacia Centro"
      (manejar_cliente_handshake bdW ⟨[], []⟩ 2 "Farmacia Centro").dir.clientes_conectados = none ∧
    ("farmacia centro" : String) ≠ "Farmacia Centro" := by
  refine ⟨rfl, rfl, rfl, rfl, by decide⟩

/-- C7 (corrected). For every accepted handshake, the canonical name under
which the session is stored — and which the admin status command returns
in its connected-pharmacies list — is the client-provided name with
surrounding whitespace trimmed AND lower-cased (`.strip().lower()`);
the provided character case is not preserved. -/
theorem C7_nombre_almacenado (bd : BaseDatos) (dir : DirectorioClientes)
    (cid : Nat) (raw : String)
    (h : (manejar_cliente_handshake bd dir cid raw).activo = true) :
    dictGet (pyLower (pyStrip raw))
      (manejar_cliente_handshake bd dir cid raw).dir.clientes_conectados = some cid ∧
    pyLower (pyStrip raw) ∈
      (comando_status (manejar_cliente_handshake bd dir cid raw).dir).farmacias_conectadas := by
  by_cases h0 : pyLower (pyStrip raw) = ""
  · simp [manejar_cliente_handshake, h0] at h
  · cases hq : consultaFarmaciaPorNombre bd (pyLower (pyStrip raw)) with
    | none => simp [manejar_cliente_handshake, h0, hq] at h
    | some f =>
      by_cases ha : f.activo
      · simp [manejar_cliente_handshake, h0, hq, ha, comando_status,
          dictGet_dictSet_self, mem_dictClaves_dictSet]
      · simp [manejar_cliente_handshake, h0, hq, ha] at h

/-- Witness for C7: the stored key for the connection that sent
" Farmacia CENTRO " is "farmacia centro". -/
theorem C7_nombre_almacenado_witness :
    dictGet (pyLower (pyStrip " Farmacia CENTRO "))
      (manejar_cliente_handshake bdW ⟨[], []⟩ 4 " Farmacia CENTRO ").dir.clientes_conectados = some 4 ∧
    pyLower (pyStrip " Farmacia CENTRO ") ∈
      (comando_status (manejar_cliente_handshake bdW ⟨[], []⟩ 4 " Farmacia CENTRO ").dir).farmacias_conectadas :=
  C7_nombre_almacenado bdW ⟨[], []⟩ 4 " Farmacia CENTRO " (by decide)

/-! ### Event relay (`escuchar_notificaciones_redis`, `src/server/server.py` 46-109)

One iteration of the `async for` body: a raw pub/sub frame carries a
`type` field and a data payload; `json.loads` of the payload either fails
(the exception is caught and logged, modelled by `datos = none`) or yields
a dictionary whose `farmacia_id` may be absent (`payload.get` returns
`None`, modelled by `farmacia_id = none`). The function returns the
outbound frames written by that iteration; the loop itself never stops on
a bad message because everything inside the body is under
`try ... except Exception`. -/

/-- A parsed Redis payload: `payload.get("farmacia_id")` and
`payload.get("mensaje", "")`. -/
structure PayloadRedis where
  farmacia_id : Option Nat
  mensaje : String
deriving DecidableEq

/-- A raw pub/sub frame: its `type` field and the result of decoding and
parsing its data (`none` when `json.loads` raises). -/
structure MensajeRedisCrudo where
  tipo : String
  datos : Option PayloadRedis
deriving DecidableEq

/-- Model of one iteration of the relay loop body
(`src/server/server.py` 69-103): skip non-`message` frames, skip
unparseable payloads, look the target up in `clientes_por_id`, and write
exactly one `notificacion` envelope when a live session exists. The
returned list holds every outbound frame written by the iteration. -/
def procesar_mensaje_redis (dir : DirectorioClientes) (raw : MensajeRedisCrudo) :
    List (Nat × Mensaje) :=
  if raw.tipo ≠ "message" then []
  else
    match raw.datos with
    | none => []
    | some payload =>
      match payload.farmacia_id with
      | none => []
      | some farmacia_id =>
        match dictGet farmacia_id dir.clientes_por_id with
        | some cid => [(cid, Mensaje.notificacion payload.mensaje)]
        | none => []

/-- C8 (confirmed). A well-formed event (a `message` frame whose payload
parses and carries a target id) whose target pharmacy has no entry in
`clientes_por_id` produces no outbound frame on any connection; the loop
body completes normally (the function is total: every exception inside
the iteration is caught by its `try`/`except`), so the receive loop
continues, having only logged the persisted-but-offline case. -/
theorem C8_evento_sin_sesion (dir : DirectorioClientes) (raw : MensajeRedisCrudo)
    (payload : PayloadRedis) (fid : Nat)
    (hdatos : raw.datos = some payload) (hfid : payload.farmacia_id = some fid)
    (hoff : dictGet fid dir.clientes_por_id = none) :
    procesar_mensaje_redis dir raw = [] := by
  unfold procesar_mensaje_redis
  by_cases ht : raw.tipo = "message"
  · simp [ht, hdatos, hfid, hoff]
  · simp [ht]

/-- Witness for C8: an event for pharmacy 7 while only pharmacy 1 is
connected produces no outbound frame. -/
theorem C8_evento_sin_sesion_witness :
    procesar_mensaje_redis ⟨[("farmacia centro", 1)], [(1, 1)]⟩
      ⟨"message", some ⟨some 7, "expira mañana"⟩⟩ = [] :=
  C8_evento_sin_sesion ⟨[("farmacia centro", 1)], [(1, 1)]⟩
    ⟨"message", some ⟨some 7, "expira mañana"⟩⟩ ⟨some 7, "expira mañana"⟩ 7
    rfl rfl (by decide)

/-! ### Medication creation (`crear_medicamento`, `src/db/database.py` 48-70,
and the `crear_medicamento` branch of `manejar_crud`,
`src/server/server.py` 169-187) -/

/-- The `{"ok": ..., "mensaje": ...}` dictionaries returned by the
repository functions. -/
structure RespuestaCrud where
  ok : Bool
  mensaje : String
deriving DecidableEq

/-- An asynchronous Celery job enqueued with `notificar_evento.delay(...)`. -/
structure TareaCelery where
  farmacia_id : Nat
  tipo : String
  mensaje : String
deriving DecidableEq

/-- Model of `crear_medicamento(conn, farmacia_id, codigo, nombre,
fecha_vencimiento)` (`src/db/database.py` 48-70): the INSERT violates the
`UNIQUE(farmacia_id, codigo)` constraint documented in the function when a
row with the same pharmacy and code exists — MariaDB error 1062, answered
with the duplicate-code message — and otherwise appends the new row. -/
def crear_medicamento (bd : BaseDatos) (farmacia_id : Nat)
    (codigo nombre fecha_vencimiento : String) : RespuestaCrud × BaseDatos :=
  if bd.medicamentos.any (fun m => m.farmacia_id == farmacia_id && m.codigo == codigo) then
    ({ ok := false,
       mensaje := "Ya existe un medicamento con el código " ++ comilla ++ codigo ++
         comilla ++ " para esta farmacia." }, bd)
  else
    ({ ok := true,
       mensaje := "Medicamento " ++ comilla ++ nombre ++ comilla ++ " creado correctamente." },
     { bd with medicamentos := bd.medicamentos ++
         [{ farmacia_id := farmacia_id, codigo := codigo, nombre := nombre,
            fecha_vencimiento := fecha_vencimiento, activo := true, motivo_baja := "" }] })

/-- Model of the `crear_medicamento` branch of `manejar_crud`
(`src/server/server.py` 169-187): call the repository, send exactly one
`respuesta` envelope, and enqueue the `notificar_evento` Celery task only
when the result was successful. Returns the envelope sent, the enqueued
tasks, and the database afterwards. -/
def manejar_crud_crear_medicamento (bd : BaseDatos) (farmacia_id : Nat)
    (codigo nombre fecha : String) : Mensaje × List TareaCelery × BaseDatos :=
  let r := crear_medicamento bd farmacia_id codigo nombre fecha
  (Mensaje.respuesta r.1.ok r.1.mensaje,
   if r.1.ok then
     [{ farmacia_id := farmacia_id, tipo := "creacion",
        mensaje := "Medicamento " ++ comilla ++ nombre ++ comilla ++ " (código: " ++
          codigo ++ ") agregado al inventario." }]
   else [],
   r.2)

/-- C9 (confirmed). Starting from a database with no medication of this
pharmacy under this code, two consecutive `crear_medicamento` requests
with the same code answer `ok: true` then `ok: false` with the
duplicate-code message, and the asynchronous notification task is
enqueued exactly once — for the first call only. -/
theorem C9_crear_medicamento_duplicado (bd : BaseDatos) (fid : Nat)
    (codigo n1 f1 n2 f2 : String)
    (h : bd.medicamentos.any (fun m => m.farmacia_id == fid && m.codigo == codigo) = false) :
    (manejar_crud_crear_medicamento bd fid codigo n1 f1).1 =
      Mensaje.respuesta true
        ("Medicamento " ++ comilla ++ n1 ++ comilla ++ " creado correctamente.") ∧
    (manejar_crud_crear_medicamento bd fid codigo n1 f1).2.1 =
      [{ farmacia_id := fid, tipo := "creacion",
         mensaje := "Medicamento " ++ comilla ++ n1 ++ comilla ++ " (código: " ++
           codigo ++ ") agregado al inventario." }] ∧
    (manejar_crud_crear_medicamento
        (manejar_crud_crear_medicamento bd fid codigo n1 f1).2.2 fid codigo n2 f2).1 =
      Mensaje.respuesta false
        ("Ya existe un medicamento con el código " ++ comilla ++ codigo ++
          comilla ++ " para esta farmacia.") ∧
    (manejar_crud_crear_medicamento
        (manejar_crud_crear_medicamento bd fid codigo n1 f1).2.2 fid codigo n2 f2).2.1 = [] := by
  refine ⟨?_, ?_, ?_, ?_⟩ <;>
    simp [manejar_crud_crear_medicamento, crear_medicamento, h]

/-- Witness for C9: the concrete scenario of the spec (code "X1",
"Ibuprofeno", expiry "2026-01-01") on an empty database. -/
theorem C9_crear_medicamento_duplicado_witness :
    (manejar_crud_crear_medicamento ⟨[], [], []⟩ 1 "X1" "Ibuprofeno" "2026-01-01").1 =
      Mensaje.respuesta true
        ("Medicamento " ++ comilla ++ "Ibuprofeno" ++ comilla ++ " creado correctamente.") ∧
    (manejar_crud_crear_medicamento ⟨[], [], []⟩ 1 "X1" "Ibuprofeno" "2026-01-01").2.1 =
      [{ farmacia_id := 1, tipo := "creacion",
         mensaje := "Medicamento " ++ comilla ++ "Ibuprofeno" ++ comilla ++ " (código: " ++
           "X1" ++ ") agregado al inventario." }] ∧
    (manejar_crud_crear_medicamento
        (manejar_crud_crear_medicamento ⟨[], [], []⟩ 1 "X1" "Ibuprofeno" "2026-01-01").2.2
        1 "X1" "Ibuprofeno" "2026-01-01").1 =
      Mensaje.respuesta false
        ("Ya existe un medicamento con el código " ++ comilla ++ "X1" ++
          comilla ++ " para esta farmacia.") ∧
    (manejar_crud_crear_medicamento
        (manejar_crud_crear_medicamento ⟨[], [], []⟩ 1 "X1" "Ibuprofeno" "2026-01-01").2.2
        1 "X1" "Ibuprofeno" "2026-01-01").2.1 = [] :=
  C9_crear_medicamento_duplicado ⟨[], [], []⟩ 1 "X1" "Ibuprofeno" "2026-01-01"
    "Ibuprofeno" "2026-01-01" rfl

/-! ### Notification history (`ver_notificaciones`,
`src/infrastructure/repositories/notificaciones.py` 13-48) -/

/-- Descending order on creation timestamps, as produced by
`ORDER BY creado_en DESC`. -/
def creadoDesc (a b : Notificacion) : Prop := b.creado_en ≤ a.creado_en

instance : DecidableRel creadoDesc := fun a b =>
  inferInstanceAs (Decidable (b.creado_en ≤ a.creado_en))

instance : IsTotal Notificacion creadoDesc :=
  ⟨fun a b => (Nat.le_total b.creado_en a.creado_en).elim Or.inl Or.inr⟩

instance : IsTrans Notificacion creadoDesc :=
  ⟨fun _ _ _ hab hbc => Nat.le_trans hbc hab⟩

/-- Model of `ver_notificaciones(conn, farmacia_id, solo_no_leidas)`
(`src/infrastructure/repositories/notificaciones.py` 13-48): SELECT the
pharmacy rows (optionally only the unread ones), newest first, LIMIT 50;
then UPDATE every unread row of the pharmacy to read. Returns the selected
rows (with their pre-update read flags, as the source serializes the rows
fetched before the UPDATE) and the database afterwards. -/
def ver_notificaciones (bd : BaseDatos) (farmacia_id : Nat) (solo_no_leidas : Bool) :
    List Notificacion × BaseDatos :=
  (((bd.notificaciones.filter
      (fun n => n.farmacia_id == farmacia_id && (!solo_no_leidas || !n.leida))).insertionSort
      creadoDesc).take 50,
   { bd with
       notificaciones := bd.notificaciones.map (fun n =>
         if n.farmacia_id == farmacia_id && !n.leida then { n with leida := true } else n) })

/-- C10 (confirmed). Every call to `ver_notificaciones` returns at most 50
rows, ordered newest first and all belonging to the pharmacy, yet marks
every unread notification of the pharmacy as read in the database — in
particular an unread notification that is not contained in the returned
list is still switched to read, without ever having been shown. -/
theorem C10_ver_notificaciones_marca_todo (bd : BaseDatos) (fid : Nat) (solo : Bool) :
    (ver_notificaciones bd fid solo).1.length ≤ 50 ∧
    List.Sorted creadoDesc (ver_notificaciones bd fid solo).1 ∧
    (∀ n, n ∈ (ver_notificaciones bd fid solo).1 →
      n ∈ bd.notificaciones ∧ n.farmacia_id = fid) ∧
    (∀ n, n ∈ (ver_notificaciones bd fid solo).2.notificaciones →
      n.farmacia_id = fid → n.leida = true) ∧
    (∀ n, n ∈ bd.notificaciones → n.farmacia_id = fid → n.leida = false →
      n ∉ (ver_notificaciones bd fid solo).1 →
      { n with leida := true } ∈ (ver_notificaciones bd fid solo).2.notificaciones) := by
  have hfst : (ver_notificaciones bd fid solo).1 =
      ((bd.notificaciones.filter
        (fun n => n.farmacia_id == fid && (!solo || !n.leida))).insertionSort creadoDesc).take 50 :=
    rfl
  have hsnd : (ver_notificaciones bd fid solo).2.notificaciones =
      bd.notificaciones.map
        (fun n => if n.farmacia_id == fid && !n.leida then { n with leida := true } else n) :=
    rfl
  refine ⟨?_, ?_, ?_, ?_, ?_⟩
  · rw [hfst]
    exact List.length_take_le 50 _
  · rw [hfst]
    exact List.Pairwise.sublist (List.take_sublist 50 _)
      (List.sorted_insertionSort creadoDesc _)
  · intro n hn
    rw [hfst] at hn
    have hn2 := (List.perm_insertionSort creadoDesc _).mem_iff.mp (List.take_subset 50 _ hn)
    rcases List.mem_filter.mp hn2 with ⟨hmem, hpred⟩
    refine ⟨hmem, ?_⟩
    simp only [Bool.and_eq_true, beq_iff_eq] at hpred
    exact hpred.1
  · intro n hn hfid
    rw [hsnd] at hn
    rcases List.mem_map.mp hn with ⟨m, _, hmn⟩
    by_cases hc : (m.farmacia_id == fid && !m.leida) = true
    · rw [if_pos hc] at hmn
      rw [← hmn]
    · rw [if_neg hc] at hmn
      subst hmn
      simp only [Bool.and_eq_true, beq_iff_eq, Bool.not_eq_true'] at hc
      cases hnl : m.leida with
      | false => exact absurd ⟨hfid, hnl⟩ hc
      | true => rfl
  · intro n hmem hfid hleida _
    rw [hsnd]
    have hc : (n.farmacia_id == fid && !n.leida) = true := by
      simp [hfid, hleida]
    refine List.mem_map.mpr ⟨n, hmem, ?_⟩
    show (if (n.farmacia_id == fid && !n.leida) = true
        then ({ n with leida := true } : Notificacion) else n) = { n with leida := true }
    rw [if_pos hc]

/-- A notification-row fixture: unread, pharmacy 7, created at time `i`. -/
def notifFila (i : Nat) : Notificacion :=
  { id := i, farmacia_id := 7, tipo := "proximo_vencimiento", mensaje := "m",
    leida := false, creado_en := i }

/-- Database fixture with 51 unread notifications for pharmacy 7, so that
the oldest one falls outside the 50 returned rows. -/
def bdN : BaseDatos := { notificaciones := (List.range 51).map notifFila }

/-- Witness for C10: on `bdN` the call returns at most 50 rows, and the
oldest unread notification — which is not among them — is nevertheless
marked read. -/
theorem C10_ver_notificaciones_marca_todo_witness :
    (ver_notificaciones bdN 7 false).1.length ≤ 50 ∧
    { notifFila 0 with leida := true } ∈ (ver_notificaciones bdN 7 false).2.notificaciones :=
  ⟨(C10_ver_notificaciones_marca_todo bdN 7 false).1,
   (C10_ver_notificaciones_marca_todo bdN 7 false).2.2.2.2 (notifFila 0)
     (by decide) (by decide) (by decide) (by decide)⟩

/-! ### Directory life cycle (`src/server/server.py` 331-378, 487-522)

A transition system over the observable steps the event loop serializes.
One event is one atomic block of the source with no `await` inside it:

* `conectar cid` — a client TCP connection `cid` is accepted
  (`manejar_cliente` starts, before any registration);
* `completar cid fid nombre` — the handshake of `cid` succeeds and lines
  334-335 run: `clientes_conectados[nombre] = writer` and
  `clientes_por_id[fid] = writer`, with no suspension point between the
  two assignments;
* `cerrar cid` — the `finally` block of `manejar_cliente` (lines
  359-378) runs for a connection whose handshake completed: the handler
  locals are the registered pair, and `del clientes_conectados[nombre]`
  fires guarded by Python truthiness (`nombre` nonempty) and key
  presence, then `del clientes_por_id[fid]` guarded by truthiness
  (`fid` nonzero) and key presence, with no `await` between the two
  deletes;
* `cerrarRechazada cid nombre fid` — the same `finally` block runs for a
  connection whose handshake did NOT complete. The locals are set before
  validation: `nombre_farmacia` at line 286 (so a rejected handshake
  still carries the trimmed lower-cased name it sent — `none` models the
  handshake failing before line 286, `some ""` the empty-name branch),
  and `farmacia_id` at line 318 on the inactive-rejection path (`none`
  on the not-found and empty-name paths). The deletes fire by key
  against the current dictionaries, exactly as in `cerrar`, so a
  rejected handshake whose stale name (or id) collides with a live
  session's key deletes that other session's entry;
* `adminAbrir aid` / `adminCerrar aid` — a monitor IPC connection opens
  or closes (`manejar_conexion_monitor` never touches either dictionary).

The guard of `completar` reflects that `manejar_cliente` registers at
most once per connection and only while that connection is open. -/

/-- A handshake-completed open client session: its connection id (standing
for the `StreamWriter`), the pharmacy id, and the normalized name it
registered under. -/
structure Sesion where
  cid : Nat
  fid : Nat
  nombre : String
deriving DecidableEq

/-- The server state observable by the event loop. -/
structure EstadoServidor where
  clientes_conectados : List (String × Nat) := []
  clientes_por_id : List (Nat × Nat) := []
  abiertas : List Nat := []
  sesiones : List Sesion := []
  admins : List Nat := []
deriving DecidableEq

/-- The atomic event-loop steps affecting the directory. -/
inductive Evento where
  | conectar (cid : Nat)
  | completar (cid fid : Nat) (nombre : String)
  | cerrar (cid : Nat)
  | cerrarRechazada (cid : Nat) (nombre : Option String) (fid : Option Nat)
  | adminAbrir (aid : Nat)
  | adminCerrar (aid : Nat)
deriving DecidableEq

/-- One atomic step of the event loop, translated from the registration
(334-335) and cleanup (363-366) blocks of `manejar_cliente` and from
`manejar_conexion_monitor` (which never mutates the directory). -/
def paso (st : EstadoServidor) : Evento → EstadoServidor
  | Evento.conectar cid => { st with abiertas := cid :: st.abiertas }
  | Evento.completar cid fid nombre =>
    if cid ∈ st.abiertas ∧ (∀ s ∈ st.sesiones, s.cid ≠ cid) then
      { st with
          sesiones := { cid := cid, fid := fid, nombre := nombre } :: st.sesiones,
          clientes_conectados := dictSet nombre cid st.clientes_conectados,
          clientes_por_id := dictSet fid cid st.clientes_por_id }
    else st
  | Evento.cerrar cid =>
    match st.sesiones.find? (fun s => s.cid == cid) with
    | none => { st with abiertas := st.abiertas.filter (fun c => decide (c ≠ cid)) }
    | some s =>
      { abiertas := st.abiertas.filter (fun c => decide (c ≠ cid)),
        sesiones := st.sesiones.filter (fun s2 => decide (s2.cid ≠ cid)),
        clientes_conectados :=
          if s.nombre ≠ "" ∧ dictTiene s.nombre st.clientes_conectados then
            dictErase s.nombre st.clientes_conectados
          else st.clientes_conectados,
        clientes_por_id :=
          if s.fid ≠ 0 ∧ dictTiene s.fid st.clientes_por_id then
            dictErase s.fid st.clientes_por_id
          else st.clientes_por_id,
        admins := st.admins }
  | Evento.cerrarRechazada cid nombre fid =>
    { st with
        abiertas := st.abiertas.filter (fun c => decide (c ≠ cid)),
        clientes_conectados :=
          match nombre with
          | some nom =>
            if nom ≠ "" ∧ dictTiene nom st.clientes_conectados then
              dictErase nom st.clientes_conectados
            else st.clientes_conectados
          | none => st.clientes_conectados,
        clientes_por_id :=
          match fid with
          | some f =>
            if f ≠ 0 ∧ dictTiene f st.clientes_por_id then
              dictErase f st.clientes_por_id
            else st.clientes_por_id
          | none => st.clientes_por_id }
  | Evento.adminAbrir aid => { st with admins := aid :: st.admins }
  | Evento.adminCerrar aid => { st with admins := st.admins.filter (fun a => decide (a ≠ aid)) }

/-- The state at server start: empty dictionaries, no connections. -/
def inicial : EstadoServidor := {}

/-- Run a sequence of event-loop steps from the start state. -/
def run (tr : List Evento) : EstadoServidor := tr.foldl paso inicial

/-- The double-connection scenario: pharmacy 5 connects twice under the
same name while the first connection is still open, then the first
connection closes and its cleanup deletes the second session's entries. -/
def trazaC3 : List Evento :=
  [Evento.conectar 1, Evento.completar 1 5 "farmacia centro",
   Evento.conectar 2, Evento.completar 2 5 "farmacia centro",
   Evento.cerrar 1]

/-- Counterexample for C3 as stated. After `trazaC3` the second connection
is open and handshake-completed, yet both directory dictionaries are
empty: directory size 0 differs from the 1 open handshake-completed
client connection. -/
theorem C3_counterexample :
    (run trazaC3).sesiones = [{ cid := 2, fid := 5, nombre := "farmacia centro" }] ∧
    (run trazaC3).abiertas = [2] ∧
    (run trazaC3).clientes_conectados = [] ∧
    (run trazaC3).clientes_por_id = [] ∧
    (run trazaC3).clientes_conectados.length ≠ (run trazaC3).sesiones.length := by
  refine ⟨rfl, rfl, rfl, rfl, by decide⟩

/-- The rename-then-reconnect scenario: connection 1 registered pharmacy 5
under its old name; the admin renames the pharmacy in the database (no
directory mutation) and the pharmacy reconnects as connection 2 under the
new name, overwriting only the id index. -/
def trazaC4 : List Evento :=
  [Evento.conectar 1, Evento.completar 1 5 "farmacia a",
   Evento.conectar 2, Evento.completar 2 5 "farmacia b"]

/-- Counterexample for C4 as stated. After `trazaC4` the first session is
present in the name index (its key still maps to writer 1) but absent
from the id index (pharmacy 5 now maps to writer 2): an entry exists in
exactly one of the two directory indices. -/
theorem C4_counterexample :
    ({ cid := 1, fid := 5, nombre := "farmacia a" } : Sesion) ∈ (run trazaC4).sesiones ∧
    dictGet "farmacia a" (run trazaC4).clientes_conectados = some 1 ∧
    dictGet 5 (run trazaC4).clientes_por_id = some 2 := by
  refine ⟨by decide, rfl, rfl⟩

/-- The stale-name rejected-handshake scenario: connection 1 registered
pharmacy 5 under "farmacia a"; the admin renames the pharmacy in the
database (no directory mutation); connection 2 then sends the now-stale
name "farmacia a" and is rejected as not registered — so its
`farmacia_id` local was never set — yet its `finally` still holds
`nombre_farmacia = "farmacia a"` (set at line 286, before validation)
and deletes the live session's name entry. -/
def trazaRechazo : List Evento :=
  [Evento.conectar 1, Evento.completar 1 5 "farmacia a",
   Evento.conectar 2, Evento.cerrarRechazada 2 (some "farmacia a") none]

/-- After `trazaRechazo` the single live handshake-completed session keeps
its id entry but has lost its name entry to the rejected connection's
cleanup: the directory invariants fail although no two completed sessions
ever shared a name or an id — the interference the amended C3/C4 provisos
must also exclude. -/
theorem rechazo_borra_entrada_ajena :
    (run trazaRechazo).sesiones = [{ cid := 1, fid := 5, nombre := "farmacia a" }] ∧
    (run trazaRechazo).clientes_conectados = [] ∧
    (run trazaRechazo).clientes_por_id = [(5, 1)] ∧
    (run trazaRechazo).clientes_conectados.length ≠ (run trazaRechazo).sesiones.length :=
  ⟨rfl, rfl, rfl, by decide⟩

/-! #### Well-formed traces

`trazaC3` and `trazaC4` show the directory invariants fail as soon as two
simultaneously open handshake-completed connections share a pharmacy name
or a pharmacy id, and `trazaRechazo` below shows they also fail when a
connection whose handshake is rejected carries a stale name (or id) that
collides with a live session's directory key: the `finally` block then
deletes that other session's entry. `eventoOk` carves out exactly the
traces without either kind of interference: connection ids are fresh, a
handshake completes only once per open connection, the registered
name/id pair is not currently registered by another live session, and
the locals of a rejected handshake's cleanup collide with no current
directory key; names are nonempty and ids nonzero (real handshakes
reject empty names, and MariaDB auto-increment ids start at 1 — the
`finally` block skips cleanup for falsy values). -/

/-- Enabledness/freshness condition for one event. -/
def eventoOk (st : EstadoServidor) : Evento → Prop
  | Evento.conectar cid => cid ∉ st.abiertas
  | Evento.completar cid fid nombre =>
    cid ∈ st.abiertas ∧ (∀ s ∈ st.sesiones, s.cid ≠ cid) ∧ nombre ≠ "" ∧ fid ≠ 0 ∧
    (∀ s ∈ st.sesiones, s.nombre ≠ nombre) ∧ (∀ s ∈ st.sesiones, s.fid ≠ fid)
  | Evento.cerrar _ => True
  | Evento.cerrarRechazada cid nombre fid =>
    (match nombre with
     | some nom => dictTiene nom st.clientes_conectados = false
     | none => True) ∧
    (match fid with
     | some f => dictTiene f st.clientes_por_id = false
     | none => True) ∧
    (∀ s ∈ st.sesiones, s.cid ≠ cid)
  | Evento.adminAbrir _ => True
  | Evento.adminCerrar _ => True

instance instDecidableEventoOk (st : EstadoServidor) (e : Evento) :
    Decidable (eventoOk st e) := by
  cases e with
  | conectar cid => unfold eventoOk; infer_instance
  | completar cid fid nombre => unfold eventoOk; infer_instance
  | cerrar cid => unfold eventoOk; infer_instance
  | cerrarRechazada cid nombre fid =>
    unfold eventoOk
    cases nombre <;> cases fid <;> infer_instance
  | adminAbrir aid => unfold eventoOk; infer_instance
  | adminCerrar aid => unfold eventoOk; infer_instance

/-- A trace whose every event satisfies `eventoOk` in the state where it
fires. -/
def BuenaTraza : EstadoServidor → List Evento → Prop
  | _, [] => True
  | st, e :: resto => eventoOk st e ∧ BuenaTraza (paso st e) resto

instance instDecidableBuenaTraza :
    (st : EstadoServidor) → (tr : List Evento) → Decidable (BuenaTraza st tr)
  | _, [] => isTrue trivial
  | st, e :: resto =>
    have : Decidable (BuenaTraza (paso st e) resto) :=
      instDecidableBuenaTraza (paso st e) resto
    inferInstanceAs (Decidable (eventoOk st e ∧ BuenaTraza (paso st e) resto))

/-- The inductive invariant tying the two dictionaries to the live
sessions: each index is exactly the projection of the session list, every
session belongs to an open connection with a nonempty name and nonzero
id, and names, ids and connections are pairwise distinct. -/
def InvDir (st : EstadoServidor) : Prop :=
  st.clientes_conectados = st.sesiones.map (fun s => (Sesion.nombre s, Sesion.cid s)) ∧
  st.clientes_por_id = st.sesiones.map (fun s => (Sesion.fid s, Sesion.cid s)) ∧
  (∀ s ∈ st.sesiones, s.cid ∈ st.abiertas ∧ s.nombre ≠ "" ∧ s.fid ≠ 0) ∧
  (st.sesiones.map Sesion.nombre).Nodup ∧
  (st.sesiones.map Sesion.fid).Nodup ∧
  (st.sesiones.map Sesion.cid).Nodup

theorem invDir_inicial : InvDir inicial :=
  ⟨rfl, rfl, fun s hs => absurd hs (List.not_mem_nil s), List.nodup_nil,
    List.nodup_nil, List.nodup_nil⟩

/-! #### List and dict helper lemmas -/

theorem filtroMapa {α β : Type} (f : α → β) (p : β → Bool) (l : List α) :
    (l.map f).filter p = (l.filter (fun x => p (f x))).map f := by
  induction l with
  | nil => rfl
  | cons a resto ih =>
    simp only [List.map_cons, List.filter_cons, ih]
    by_cases h : p (f a) = true
    · simp [h]
    · simp [h]

theorem dictErase_eq_self {κ ν : Type} [DecidableEq κ] (k : κ) (d : List (κ × ν))
    (h : ∀ p ∈ d, p.1 ≠ k) : dictErase k d = d := by
  rw [dictErase, List.filter_eq_self]
  intro a ha
  exact decide_eq_true (h a ha)

theorem dictGet_some_mem {κ ν : Type} [DecidableEq κ] (k : κ) (v : ν) :
    ∀ (d : List (κ × ν)), dictGet k d = some v → (k, v) ∈ d := by
  intro d
  induction d with
  | nil => intro h; cases h
  | cons p resto ih =>
    intro h
    rw [dictGet] at h
    by_cases hk : p.1 = k
    · rw [if_pos hk] at h
      have : p = (k, v) := by
        cases p
        cases hk
        cases h
        rfl
      exact this ▸ List.mem_cons_self _ _
    · rw [if_neg hk] at h
      exact List.mem_cons_of_mem _ (ih h)

theorem dictErase_length_lt {κ ν : Type} [DecidableEq κ] (k : κ) (v : ν)
    (d : List (κ × ν)) (h : dictGet k d = some v) :
    (dictErase k d).length < d.length := by
  rw [dictErase]
  apply List.length_filter_lt_length_iff_exists.mpr
  exact ⟨(k, v), dictGet_some_mem k v d h, by simp⟩

theorem dictGet_map_of_nodup {α κ ν : Type} [DecidableEq κ] (g : α → κ) (h : α → ν)
    (l : List α) (hnd : (l.map g).Nodup) (a : α) (ha : a ∈ l) :
    dictGet (g a) (l.map (fun x => (g x, h x))) = some (h a) := by
  induction l with
  | nil => cases ha
  | cons b resto ih =>
    have hnd2 : g b ∉ resto.map g ∧ (resto.map g).Nodup := by
      rw [List.map_cons] at hnd
      exact List.nodup_cons.mp hnd
    rcases List.mem_cons.mp ha with rfl | ha2
    · simp [dictGet]
    · have hne : g b ≠ g a := fun he => hnd2.1 (he ▸ List.mem_map_of_mem g ha2)
      simpa [dictGet, hne] using ih hnd2.2 ha2

/-! #### Step-shape lemmas -/

theorem paso_completar_eq (st : EstadoServidor) (cid fid : Nat) (nombre : String)
    (h1 : cid ∈ st.abiertas) (h2 : ∀ s ∈ st.sesiones, s.cid ≠ cid) :
    paso st (Evento.completar cid fid nombre) =
      { st with
          sesiones := { cid := cid, fid := fid, nombre := nombre } :: st.sesiones,
          clientes_conectados := dictSet nombre cid st.clientes_conectados,
          clientes_por_id := dictSet fid cid st.clientes_por_id } := by
  simp only [paso]
  rw [if_pos ⟨h1, h2⟩]

theorem paso_cerrar_none (st : EstadoServidor) (cid : Nat)
    (hfind : st.sesiones.find? (fun s => s.cid == cid) = none) :
    paso st (Evento.cerrar cid) =
      { st with abiertas := st.abiertas.filter (fun c => decide (c ≠ cid)) } := by
  simp only [paso, hfind]

theorem paso_cerrar_some (st : EstadoServidor) (cid : Nat) (s : Sesion)
    (hfind : st.sesiones.find? (fun s2 => s2.cid == cid) = some s)
    (hcond_n : s.nombre ≠ "" ∧ dictTiene s.nombre st.clientes_conectados = true)
    (hcond_f : s.fid ≠ 0 ∧ dictTiene s.fid st.clientes_por_id = true) :
    paso st (Evento.cerrar cid) =
      { abiertas := st.abiertas.filter (fun c => decide (c ≠ cid)),
        sesiones := st.sesiones.filter (fun s2 => decide (s2.cid ≠ cid)),
        clientes_conectados := dictErase s.nombre st.clientes_conectados,
        clientes_por_id := dictErase s.fid st.clientes_por_id,
        admins := st.admins } := by
  simp only [paso, hfind]
  rw [if_pos hcond_n, if_pos hcond_f]

theorem paso_cerrarRechazada_eq (st : EstadoServidor) (cid : Nat)
    (nombre : Option String) (fid : Option Nat)
    (hn : match nombre with
          | some nom => dictTiene nom st.clientes_conectados = false
          | none => True)
    (hf : match fid with
          | some f => dictTiene f st.clientes_por_id = false
          | none => True) :
    paso st (Evento.cerrarRechazada cid nombre fid) =
      { st with abiertas := st.abiertas.filter (fun c => decide (c ≠ cid)) } := by
  cases nombre with
  | none =>
    cases fid with
    | none => rfl
    | some f =>
      have hf2 : dictTiene f st.clientes_por_id = false := hf
      simp only [paso]
      rw [if_neg (fun h => absurd h.2 (by rw [hf2]; exact Bool.false_ne_true))]
  | some nom =>
    have hn2 : dictTiene nom st.clientes_conectados = false := hn
    cases fid with
    | none =>
      simp only [paso]
      rw [if_neg (fun h => absurd h.2 (by rw [hn2]; exact Bool.false_ne_true))]
    | some f =>
      have hf2 : dictTiene f st.clientes_por_id = false := hf
      simp only [paso]
      rw [if_neg (fun h => absurd h.2 (by rw [hn2]; exact Bool.false_ne_true)),
        if_neg (fun h => absurd h.2 (by rw [hf2]; exact Bool.false_ne_true))]

/-! #### Preservation of the directory invariant -/

theorem paso_preserva_inv (st : EstadoServidor) (e : Evento)
    (hok : eventoOk st e) (hinv : InvDir st) : InvDir (paso st e) := by
  obtain ⟨hcc, hci, habs, hndn, hndf, hndc⟩ := hinv
  cases e with
  | conectar cid =>
    exact ⟨hcc, hci,
      fun s hs => ⟨List.mem_cons_of_mem _ (habs s hs).1, (habs s hs).2.1, (habs s hs).2.2⟩,
      hndn, hndf, hndc⟩
  | completar cid fid nombre =>
    obtain ⟨hmem, hfresh, hnom, hfid, hnfresh, hffresh⟩ := hok
    rw [paso_completar_eq st cid fid nombre hmem hfresh]
    have herase_n : dictErase nombre st.clientes_conectados = st.clientes_conectados := by
      rw [hcc]
      apply dictErase_eq_self
      intro p hp
      rcases List.mem_map.mp hp with ⟨s, hs, rfl⟩
      exact hnfresh s hs
    have herase_f : dictErase fid st.clientes_por_id = st.clientes_por_id := by
      rw [hci]
      apply dictErase_eq_self
      intro p hp
      rcases List.mem_map.mp hp with ⟨s, hs, rfl⟩
      exact hffresh s hs
    refine ⟨?_, ?_, ?_, ?_, ?_, ?_⟩
    · show dictSet nombre cid st.clientes_conectados = _
      rw [dictSet, herase_n, hcc, List.map_cons]
    · show dictSet fid cid st.clientes_por_id = _
      rw [dictSet, herase_f, hci, List.map_cons]
    · intro s hs
      rcases List.mem_cons.mp hs with rfl | hs2
      · exact ⟨hmem, hnom, hfid⟩
      · exact ⟨(habs s hs2).1, (habs s hs2).2.1, (habs s hs2).2.2⟩
    · rw [List.map_cons]
      refine List.nodup_cons.mpr ⟨?_, hndn⟩
      intro hmm
      rcases List.mem_map.mp hmm with ⟨s, hs, heq⟩
      exact hnfresh s hs heq
    · rw [List.map_cons]
      refine List.nodup_cons.mpr ⟨?_, hndf⟩
      intro hmm
      rcases List.mem_map.mp hmm with ⟨s, hs, heq⟩
      exact hffresh s hs heq
    · rw [List.map_cons]
      refine List.nodup_cons.mpr ⟨?_, hndc⟩
      intro hmm
      rcases List.mem_map.mp hmm with ⟨s, hs, heq⟩
      exact hfresh s hs heq
  | cerrar cid =>
    cases hfind : st.sesiones.find? (fun s => s.cid == cid) with
    | none =>
      have hnone : ∀ s ∈ st.sesiones, s.cid ≠ cid := by
        intro s hs
        have h := List.find?_eq_none.mp hfind s hs
        simpa using h
      rw [paso_cerrar_none st cid hfind]
      refine ⟨hcc, hci, ?_, hndn, hndf, hndc⟩
      intro s hs
      exact ⟨List.mem_filter.mpr ⟨(habs s hs).1, decide_eq_true (hnone s hs)⟩,
        (habs s hs).2.1, (habs s hs).2.2⟩
    | some s =>
      have hscid : s.cid = cid := by simpa using List.find?_some hfind
      have hsmem : s ∈ st.sesiones := List.mem_of_find?_eq_some hfind
      have hget_n : dictGet s.nombre st.clientes_conectados = some s.cid := by
        rw [hcc]
        exact dictGet_map_of_nodup Sesion.nombre Sesion.cid st.sesiones hndn s hsmem
      have hget_f : dictGet s.fid st.clientes_por_id = some s.cid := by
        rw [hci]
        exact dictGet_map_of_nodup Sesion.fid Sesion.cid st.sesiones hndf s hsmem
      have htn : dictTiene s.nombre st.clientes_conectados = true := by
        rw [dictTiene, hget_n]
        rfl
      have htf : dictTiene s.fid st.clientes_por_id = true := by
        rw [dictTiene, hget_f]
        rfl
      rw [paso_cerrar_some st cid s hfind ⟨(habs s hsmem).2.1, htn⟩ ⟨(habs s hsmem).2.2, htf⟩]
      have hinjn := List.inj_on_of_nodup_map hndn
      have hinjf := List.inj_on_of_nodup_map hndf
      have hinjc := List.inj_on_of_nodup_map hndc
      have hbase_n : ∀ x ∈ st.sesiones, ((x.nombre = s.nombre) ↔ (x.cid = cid)) := by
        intro x hx
        constructor
        · intro h1
          have hxs : x = s := hinjn hx hsmem h1
          rw [hxs, hscid]
        · intro h1
          have hxs : x = s := hinjc hx hsmem (by rw [h1, hscid])
          rw [hxs]
      have hbase_f : ∀ x ∈ st.sesiones, ((x.fid = s.fid) ↔ (x.cid = cid)) := by
        intro x hx
        constructor
        · intro h1
          have hxs : x = s := hinjf hx hsmem h1
          rw [hxs, hscid]
        · intro h1
          have hxs : x = s := hinjc hx hsmem (by rw [h1, hscid])
          rw [hxs]
      have hfe_n : st.sesiones.filter (fun x => decide (Sesion.nombre x ≠ s.nombre)) =
          st.sesiones.filter (fun s2 => decide (s2.cid ≠ cid)) :=
        List.filter_congr (fun x hx => decide_eq_decide.mpr (not_congr (hbase_n x hx)))
      have hfe_f : st.sesiones.filter (fun x => decide (Sesion.fid x ≠ s.fid)) =
          st.sesiones.filter (fun s2 => decide (s2.cid ≠ cid)) :=
        List.filter_congr (fun x hx => decide_eq_decide.mpr (not_congr (hbase_f x hx)))
      refine ⟨?_, ?_, ?_, ?_, ?_, ?_⟩
      · show dictErase s.nombre st.clientes_conectados = _
        rw [hcc, dictErase, filtroMapa]
        exact congrArg (List.map _) hfe_n
      · show dictErase s.fid st.clientes_por_id = _
        rw [hci, dictErase, filtroMapa]
        exact congrArg (List.map _) hfe_f
      · intro s2 hs2
        have hs2m := List.mem_filter.mp hs2
        have hne2 : s2.cid ≠ cid := of_decide_eq_true hs2m.2
        exact ⟨List.mem_filter.mpr ⟨(habs s2 hs2m.1).1, decide_eq_true hne2⟩,
          (habs s2 hs2m.1).2.1, (habs s2 hs2m.1).2.2⟩
      · exact List.Nodup.sublist (List.Sublist.map _ (List.filter_sublist _)) hndn
      · exact List.Nodup.sublist (List.Sublist.map _ (List.filter_sublist _)) hndf
      · exact List.Nodup.sublist (List.Sublist.map _ (List.filter_sublist _)) hndc
  | cerrarRechazada cid nombre fid =>
    obtain ⟨hn, hf, hfresh⟩ := hok
    rw [paso_cerrarRechazada_eq st cid nombre fid hn hf]
    refine ⟨hcc, hci, ?_, hndn, hndf, hndc⟩
    intro s hs
    exact ⟨List.mem_filter.mpr ⟨(habs s hs).1, decide_eq_true (hfresh s hs)⟩,
      (habs s hs).2.1, (habs s hs).2.2⟩
  | adminAbrir aid =>
    exact ⟨hcc, hci, habs, hndn, hndf, hndc⟩
  | adminCerrar aid =>
    exact ⟨hcc, hci, habs, hndn, hndf, hndc⟩

theorem invDir_run_aux : ∀ (tr : List Evento) (st : EstadoServidor),
    InvDir st → BuenaTraza st tr → InvDir (tr.foldl paso st)
  | [], _, hinv, _ => hinv
  | e :: resto, st, hinv, htr =>
    invDir_run_aux resto (paso st e) (paso_preserva_inv st e htr.1 hinv) htr.2

theorem invDir_run (tr : List Evento) (h : BuenaTraza inicial tr) : InvDir (run tr) :=
  invDir_run_aux tr inicial invDir_inicial h

/-- Under the invariant, a well-formed step either leaves both directory
indices unchanged or changes both: there is no step after which one index
moved and the other did not — the embedding-level rendering of the fact
that lines 334-335 and 363-366 of `src/server/server.py` contain no
`await` between the two dictionary updates. -/
theorem paso_actualiza_ambos (st : EstadoServidor) (e : Evento)
    (hok : eventoOk st e) (hinv : InvDir st) :
    ((paso st e).clientes_conectados = st.clientes_conectados ↔
     (paso st e).clientes_por_id = st.clientes_por_id) := by
  obtain ⟨hcc, hci, habs, hndn, hndf, hndc⟩ := hinv
  cases e with
  | conectar cid => exact iff_of_true rfl rfl
  | adminAbrir aid => exact iff_of_true rfl rfl
  | adminCerrar aid => exact iff_of_true rfl rfl
  | cerrarRechazada cid nombre fid =>
    obtain ⟨hn, hf, _⟩ := hok
    rw [paso_cerrarRechazada_eq st cid nombre fid hn hf]
    exact iff_of_true rfl rfl
  | completar cid fid nombre =>
    obtain ⟨hmem, hfresh, hnom, hfid, hnfresh, hffresh⟩ := hok
    rw [paso_completar_eq st cid fid nombre hmem hfresh]
    have herase_n : dictErase nombre st.clientes_conectados = st.clientes_conectados := by
      rw [hcc]
      apply dictErase_eq_self
      intro p hp
      rcases List.mem_map.mp hp with ⟨s, hs, rfl⟩
      exact hnfresh s hs
    have herase_f : dictErase fid st.clientes_por_id = st.clientes_por_id := by
      rw [hci]
      apply dictErase_eq_self
      intro p hp
      rcases List.mem_map.mp hp with ⟨s, hs, rfl⟩
      exact hffresh s hs
    apply iff_of_false
    · intro heq
      have heq2 : dictSet nombre cid st.clientes_conectados = st.clientes_conectados := heq
      have hlen := congrArg List.length heq2
      rw [dictSet, herase_n] at hlen
      simp at hlen
    · intro heq
      have heq2 : dictSet fid cid st.clientes_por_id = st.clientes_por_id := heq
      have hlen := congrArg List.length heq2
      rw [dictSet, herase_f] at hlen
      simp at hlen
  | cerrar cid =>
    cases hfind : st.sesiones.find? (fun s => s.cid == cid) with
    | none =>
      rw [paso_cerrar_none st cid hfind]
      exact iff_of_true rfl rfl
    | some s =>
      have hsmem : s ∈ st.sesiones := List.mem_of_find?_eq_some hfind
      have hget_n : dictGet s.nombre st.clientes_conectados = some s.cid := by
        rw [hcc]
        exact dictGet_map_of_nodup Sesion.nombre Sesion.cid st.sesiones hndn s hsmem
      have hget_f : dictGet s.fid st.clientes_por_id = some s.cid := by
        rw [hci]
        exact dictGet_map_of_nodup Sesion.fid Sesion.cid st.sesiones hndf s hsmem
      have htn : dictTiene s.nombre st.clientes_conectados = true := by
        rw [dictTiene, hget_n]
        rfl
      have htf : dictTiene s.fid st.clientes_por_id = true := by
        rw [dictTiene, hget_f]
        rfl
      rw [paso_cerrar_some st cid s hfind ⟨(habs s hsmem).2.1, htn⟩ ⟨(habs s hsmem).2.2, htf⟩]
      apply iff_of_false
      · intro heq
        have heq2 : dictErase s.nombre st.clientes_conectados = st.clientes_conectados := heq
        have hlen := congrArg List.length heq2
        exact absurd hlen
          (Nat.ne_of_lt (dictErase_length_lt s.nombre s.cid st.clientes_conectados hget_n))
      · intro heq
        have heq2 : dictErase s.fid st.clientes_por_id = st.clientes_por_id := heq
        have hlen := congrArg List.length heq2
        exact absurd hlen
          (Nat.ne_of_lt (dictErase_length_lt s.fid s.cid st.clientes_por_id hget_f))

/-- C3 (corrected). Provided no pharmacy ever holds two simultaneously
open handshake-completed connections (connection ids fresh, names
nonempty, pharmacy ids nonzero — all true of real handshakes) and no
rejected handshake runs its cleanup while the stale name or id it
carries is a live directory key (the reachable interference of
`trazaRechazo`, enabled by an admin rename), every reachable server
state has: each directory index exactly as large as the set of
currently-open handshake-completed client connections, and every
directory entry pointing at the writer of one of those client sessions —
never at an admin (monitor IPC) connection, which by
`manejar_conexion_monitor` performs no directory mutation. Without the
duplicate-connection proviso the claim is false (`C3_counterexample`),
and without the rejected-cleanup proviso the invariant fails as in
`rechazo_borra_entrada_ajena`. -/
theorem C3_directorio_cuenta_sesiones (tr : List Evento) (h : BuenaTraza inicial tr) :
    (run tr).clientes_conectados.length = (run tr).sesiones.length ∧
    (run tr).clientes_por_id.length = (run tr).sesiones.length ∧
    (∀ par ∈ (run tr).clientes_conectados, ∃ s ∈ (run tr).sesiones, par.2 = s.cid) ∧
    (∀ par ∈ (run tr).clientes_por_id, ∃ s ∈ (run tr).sesiones, par.2 = s.cid) := by
  obtain ⟨hcc, hci, _, _, _, _⟩ := invDir_run tr h
  refine ⟨by rw [hcc, List.length_map], by rw [hci, List.length_map], ?_, ?_⟩
  · intro par hpar
    rw [hcc] at hpar
    rcases List.mem_map.mp hpar with ⟨s, hs, rfl⟩
    exact ⟨s, hs, rfl⟩
  · intro par hpar
    rw [hci] at hpar
    rcases List.mem_map.mp hpar with ⟨s, hs, rfl⟩
    exact ⟨s, hs, rfl⟩

/-- A well-formed trace: two distinct pharmacies connect, an admin
connection comes and goes, and the first client disconnects. -/
def trazaC3W : List Evento :=
  [Evento.conectar 1, Evento.completar 1 5 "farmacia centro", Evento.adminAbrir 9,
   Evento.conectar 2, Evento.completar 2 6 "farmacia sur", Evento.cerrar 1,
   Evento.adminCerrar 9]

/-- Witness for C3: both directory sizes match the session count on the
concrete trace `trazaC3W`. -/
theorem C3_directorio_cuenta_sesiones_witness :
    (run trazaC3W).clientes_conectados.length = (run trazaC3W).sesiones.length ∧
    (run trazaC3W).clientes_por_id.length = (run trazaC3W).sesiones.length :=
  ⟨(C3_directorio_cuenta_sesiones trazaC3W (by decide)).1,
   (C3_directorio_cuenta_sesiones trazaC3W (by decide)).2.1⟩

/-- C4 (corrected). Provided simultaneously open handshake-completed
sessions never share a name or a pharmacy id (excluded by the
rename-then-reconnect interference of `C4_counterexample`) and no
rejected handshake runs its cleanup while the stale name or id it
carries is a live directory key (the rename-enabled interference of
`trazaRechazo`, which leaves a session in the id index only), every
reachable state has each live session present in both directory indices
under its own writer, a writer present in the name index exactly when it
is present in the id index, and every well-formed step mutating both
indices together — the atomic no-await-between-updates behaviour of the
cleanup run by every connection, completed or rejected (363-366), and of
the register block (334-335). -/
theorem C4_ambos_indices_o_ninguno (tr : List Evento) (h : BuenaTraza inicial tr) :
    (∀ s ∈ (run tr).sesiones,
      dictGet s.nombre (run tr).clientes_conectados = some s.cid ∧
      dictGet s.fid (run tr).clientes_por_id = some s.cid) ∧
    (∀ c : Nat, (∃ nom, (nom, c) ∈ (run tr).clientes_conectados) ↔
      (∃ fid, (fid, c) ∈ (run tr).clientes_por_id)) ∧
    (∀ e, eventoOk (run tr) e →
      ((paso (run tr) e).clientes_conectados = (run tr).clientes_conectados ↔
       (paso (run tr) e).clientes_por_id = (run tr).clientes_por_id)) := by
  obtain ⟨hcc, hci, habs, hndn, hndf, hndc⟩ := invDir_run tr h
  refine ⟨?_, ?_, fun e hok => paso_actualiza_ambos (run tr) e hok (invDir_run tr h)⟩
  · intro s hs
    constructor
    · rw [hcc]
      exact dictGet_map_of_nodup Sesion.nombre Sesion.cid _ hndn s hs
    · rw [hci]
      exact dictGet_map_of_nodup Sesion.fid Sesion.cid _ hndf s hs
  · intro c
    constructor
    · rintro ⟨nom, hmem⟩
      rw [hcc] at hmem
      rcases List.mem_map.mp hmem with ⟨s, hs, heq⟩
      have hcid : s.cid = c := congrArg Prod.snd heq
      refine ⟨s.fid, ?_⟩
      rw [hci]
      exact hcid ▸ List.mem_map_of_mem _ hs
    · rintro ⟨fid, hmem⟩
      rw [hci] at hmem
      rcases List.mem_map.mp hmem with ⟨s, hs, heq⟩
      have hcid : s.cid = c := congrArg Prod.snd heq
      refine ⟨s.nombre, ?_⟩
      rw [hcc]
      exact hcid ▸ List.mem_map_of_mem _ hs

/-- A minimal well-formed trace: one pharmacy completes its handshake. -/
def trazaC4W : List Evento :=
  [Evento.conectar 1, Evento.completar 1 5 "farmacia a"]

/-- Witness for C4: on `trazaC4W` the single session is present in both
indices under its own writer. -/
theorem C4_ambos_indices_o_ninguno_witness :
    dictGet "farmacia a" (run trazaC4W).clientes_conectados = some 1 ∧
    dictGet 5 (run trazaC4W).clientes_por_id = some 1 :=
  (C4_ambos_indices_o_ninguno trazaC4W (by decide)).1
    { cid := 1, fid := 5, nombre := "farmacia a" } (by decide)

/-! ### Ordering of the forced-deactivation effects
(`manejar_comando_monitor`, `src/server/server.py` 411-434, and the
`finally` block of `manejar_cliente`, 359-378)

Scenario of claim C5: a `desactivar_farmacia` admin command is processed
while the target pharmacy has a live session. The admin task executes, in
program order (each step an `await`, hence a suspension point after it):
`desactivar_farmacia` (repository marks inactive), `enviar_mensaje` of
the closing notice to the live connection, `close()`/`wait_closed()` of
that connection, and finally `enviar_mensaje` of the admin response. The
client handler task of the target session is parked in
`await recibir_mensaje(reader)`; that read can only fail once the socket
is closed, so its `finally` — which is what removes the session from both
dictionaries, per the comment at line 430 — becomes runnable only after
the close step. A schedule is any interleaving of the five steps that
respects the admin task's program order and that enabling. -/

/-- The five atomic steps of the deactivation scenario. -/
inductive PasoDesactivar where
  | marcarInactiva
  | avisarCliente
  | cerrarConexion
  | responderMonitor
  | limpiarCliente
deriving DecidableEq

/-- Observable state of the scenario: the four admin-task effects, the
directory membership of the target pharmacy, the admin task's program
counter and whether the client cleanup ran. -/
structure EstadoDesactivar where
  farmaciaActiva : Bool := true
  avisoEnviado : Bool := false
  conexionCerrada : Bool := false
  respuestaEnviada : Bool := false
  enDirectorio : Bool := true
  pcMonitor : Nat := 0
  limpiezaHecha : Bool := false
deriving DecidableEq

/-- Which step may fire in a state: the admin steps in program order, the
client cleanup only once the connection was force-closed, once. -/
def habilitadoDesactivar (st : EstadoDesactivar) : PasoDesactivar → Bool
  | PasoDesactivar.marcarInactiva => st.pcMonitor == 0
  | PasoDesactivar.avisarCliente => st.pcMonitor == 1
  | PasoDesactivar.cerrarConexion => st.pcMonitor == 2
  | PasoDesactivar.responderMonitor => st.pcMonitor == 3
  | PasoDesactivar.limpiarCliente => st.conexionCerrada && !st.limpiezaHecha

/-- Effect of one step. -/
def pasoDesactivar (st : EstadoDesactivar) : PasoDesactivar → EstadoDesactivar
  | PasoDesactivar.marcarInactiva => { st with farmaciaActiva := false, pcMonitor := 1 }
  | PasoDesactivar.avisarCliente => { st with avisoEnviado := true, pcMonitor := 2 }
  | PasoDesactivar.cerrarConexion => { st with conexionCerrada := true, pcMonitor := 3 }
  | PasoDesactivar.responderMonitor => { st with respuestaEnviada := true, pcMonitor := 4 }
  | PasoDesactivar.limpiarCliente => { st with enDirectorio := false, limpiezaHecha := true }

/-- A schedule each of whose steps is enabled when it fires. -/
def PlanificacionValida : EstadoDesactivar → List PasoDesactivar → Prop
  | _, [] => True
  | st, p :: resto =>
    habilitadoDesactivar st p = true ∧ PlanificacionValida (pasoDesactivar st p) resto

instance instDecidablePlanificacionValida :
    (st : EstadoDesactivar) → (pasos : List PasoDesactivar) →
      Decidable (PlanificacionValida st pasos)
  | _, [] => isTrue trivial
  | st, p :: resto =>
    have : Decidable (PlanificacionValida (pasoDesactivar st p) resto) :=
      instDecidablePlanificacionValida (pasoDesactivar st p) resto
    inferInstanceAs (Decidable (habilitadoDesactivar st p = true ∧
      PlanificacionValida (pasoDesactivar st p) resto))

/-- Initial state of the scenario: pharmacy active and connected. -/
def inicialDesactivar : EstadoDesactivar := {}

/-- Run a schedule from the initial state. -/
def runDesactivar (pasos : List PasoDesactivar) : EstadoDesactivar :=
  pasos.foldl pasoDesactivar inicialDesactivar

/-- The admin-first schedule: the whole admin command runs to completion
before the event loop schedules the client handler's cleanup. -/
def planC5 : List PasoDesactivar :=
  [PasoDesactivar.marcarInactiva, PasoDesactivar.avisarCliente,
   PasoDesactivar.cerrarConexion, PasoDesactivar.responderMonitor]

/-- Counterexample for C5 as stated. `planC5` is a valid schedule after
which the admin command has completed with its response sent, the
repository is inactive and the notice was delivered — yet the Session
Directory still contains the pharmacy, because its removal belongs to the
separately scheduled client-handler `finally` that has not run yet. -/
theorem C5_counterexample :
    PlanificacionValida inicialDesactivar planC5 ∧
    (runDesactivar planC5).respuestaEnviada = true ∧
    (runDesactivar planC5).farmaciaActiva = false ∧
    (runDesactivar planC5).avisoEnviado = true ∧
    (runDesactivar planC5).enDirectorio = true := by
  refine ⟨by decide, rfl, rfl, rfl, rfl⟩

/-- Inductive invariant of the scenario, tying each effect flag to the
admin program counter and the cleanup to the forced close. -/
def InvC5 (st : EstadoDesactivar) : Prop :=
  (1 ≤ st.pcMonitor → st.farmaciaActiva = false) ∧
  (2 ≤ st.pcMonitor → st.avisoEnviado = true) ∧
  (3 ≤ st.pcMonitor → st.conexionCerrada = true) ∧
  (st.avisoEnviado = true → 2 ≤ st.pcMonitor) ∧
  (st.conexionCerrada = true → 3 ≤ st.pcMonitor) ∧
  (st.limpiezaHecha = true → st.conexionCerrada = true) ∧
  (st.enDirectorio = false → st.limpiezaHecha = true)

theorem invC5_inicial : InvC5 inicialDesactivar :=
  ⟨by decide, by decide, by decide, by decide, by decide, by decide, by decide⟩

theorem pasoDesactivar_preserva (st : EstadoDesactivar) (p : PasoDesactivar)
    (hen : habilitadoDesactivar st p = true) (hinv : InvC5 st) :
    InvC5 (pasoDesactivar st p) := by
  obtain ⟨i1, i2, i3, i4, i5, i6, i7⟩ := hinv
  cases p with
  | marcarInactiva =>
    have hpc : st.pcMonitor = 0 := by simpa [habilitadoDesactivar] using hen
    exact ⟨fun _ => rfl, fun h => absurd h ((by omega : ¬ ((2:Nat) ≤ 1))),
      fun h => absurd h ((by omega : ¬ ((3:Nat) ≤ 1))),
      fun ha => absurd (i4 ha) (by omega),
      fun hc => absurd (i5 hc) (by omega), i6, i7⟩
  | avisarCliente =>
    have hpc : st.pcMonitor = 1 := by simpa [habilitadoDesactivar] using hen
    exact ⟨fun _ => i1 (by omega), fun _ => rfl,
      fun h => absurd h ((by omega : ¬ ((3:Nat) ≤ 2))),
      fun _ => (by omega : (2:Nat) ≤ 2),
      fun hc => absurd (i5 hc) (by omega), i6, i7⟩
  | cerrarConexion =>
    have hpc : st.pcMonitor = 2 := by simpa [habilitadoDesactivar] using hen
    exact ⟨fun _ => i1 (by omega), fun _ => i2 (by omega), fun _ => rfl,
      fun _ => (by omega : (2:Nat) ≤ 3), fun _ => (by omega : (3:Nat) ≤ 3),
      fun _ => rfl, i7⟩
  | responderMonitor =>
    have hpc : st.pcMonitor = 3 := by simpa [habilitadoDesactivar] using hen
    exact ⟨fun _ => i1 (by omega), fun _ => i2 (by omega), fun _ => i3 (by omega),
      fun _ => (by omega : (2:Nat) ≤ 4), fun _ => (by omega : (3:Nat) ≤ 4), i6, i7⟩
  | limpiarCliente =>
    have hcc : st.conexionCerrada = true := by
      have h : st.conexionCerrada = true ∧ st.limpiezaHecha = false := by
        simpa [habilitadoDesactivar] using hen
      exact h.1
    exact ⟨i1, i2, i3, i4, i5, fun _ => hcc, fun _ => rfl⟩

theorem invC5_run_aux : ∀ (pasos : List PasoDesactivar) (st : EstadoDesactivar),
    InvC5 st → PlanificacionValida st pasos → InvC5 (pasos.foldl pasoDesactivar st)
  | [], _, hinv, _ => hinv
  | p :: resto, st, hinv, hval =>
    invC5_run_aux resto (pasoDesactivar st p)
      (pasoDesactivar_preserva st p hval.1 hinv) hval.2

/-- C5 (corrected). In every valid interleaving of the deactivation
scenario, the observable effects keep their order: the closing notice is
never observed before the repository is inactive, the forced close never
before the notice, and the Session Directory entry disappears only after
all three — but the removal is performed by the client handler's own
cleanup, a separately scheduled task, so it is not guaranteed to have
happened by the time the admin command completes with its response
(`C5_counterexample` exhibits a valid schedule completing the command
with the entry still present). -/
theorem C5_desactivar_orden (pasos : List PasoDesactivar)
    (h : PlanificacionValida inicialDesactivar pasos) :
    ((runDesactivar pasos).avisoEnviado = true →
      (runDesactivar pasos).farmaciaActiva = false) ∧
    ((runDesactivar pasos).conexionCerrada = true →
      (runDesactivar pasos).avisoEnviado = true) ∧
    ((runDesactivar pasos).enDirectorio = false →
      (runDesactivar pasos).avisoEnviado = true ∧
      (runDesactivar pasos).farmaciaActiva = false ∧
      (runDesactivar pasos).conexionCerrada = true) := by
  obtain ⟨i1, i2, i3, i4, i5, i6, i7⟩ :=
    invC5_run_aux pasos inicialDesactivar invC5_inicial h
  refine ⟨fun ha => i1 (le_trans (by omega) (i4 ha)),
    fun hc => i2 (le_trans (by omega) (i5 hc)), fun hd => ?_⟩
  have hcc := i6 (i7 hd)
  exact ⟨i2 (le_trans (by omega) (i5 hcc)), i1 (le_trans (by omega) (i5 hcc)), hcc⟩

/-- The full schedule: cleanup runs after the admin response. -/
def planC5W : List PasoDesactivar :=
  [PasoDesactivar.marcarInactiva, PasoDesactivar.avisarCliente,
   PasoDesactivar.cerrarConexion, PasoDesactivar.responderMonitor,
   PasoDesactivar.limpiarCliente]

/-- Witness for C5: on the complete schedule `planC5W`, once the entry is
gone the notice was sent, the repository is inactive and the connection
closed. -/
theorem C5_desactivar_orden_witness :
    (runDesactivar planC5W).avisoEnviado = true ∧
    (runDesactivar planC5W).farmaciaActiva = false ∧
    (runDesactivar planC5W).conexionCerrada = true :=
  (C5_desactivar_orden planC5W (by decide)).2.2 (by decide)
